import Mathlib

/-!
Verification of the span-to-outline inference pipeline of the Round-1A
repository (src/app/extractor.py, src/app/utils.py).  Python floats are
modelled by exact rationals, Python strings by Lean strings (character
predicates use the ASCII fragment), Python dicts with a fixed literal shape
by association lists in insertion order, and Python exceptions by
Except String.  The trained classifier is opaque in the source
(model.predict composed with the label decoder) and is modelled by an
arbitrary function from the feature row to Option String, None standing for
a prediction failure caught by the bare except.
-/

/-- Python str whitespace (ASCII fragment): space, tab, newline, return,
vertical tab, form feed. -/
def pyIsSpace (c : Char) : Bool :=
  c = ' ' || c = '\t' || c = '\n' || c = '\r' || c = '\x0b' || c = '\x0c'

/-- Python text.strip() on a character list. -/
def pyStripChars (s : List Char) : List Char :=
  ((s.dropWhile pyIsSpace).reverse.dropWhile pyIsSpace).reverse

/-- Python text.strip() on a string. -/
def pyStrip (s : String) : String := String.mk (pyStripChars s.data)

/-- Python text.lower() (ASCII fragment). -/
def pyLower (s : String) : String := String.mk (s.data.map Char.toLower)

/-- Counter for len(text.split()): number of maximal whitespace-free runs.
The flag says whether the previous character was inside a word. -/
def wcAux : List Char → Bool → Nat
  | [], _ => 0
  | c :: rest, inWord =>
    if pyIsSpace c then wcAux rest false
    else (if inWord then 0 else 1) + wcAux rest true

/-- Python len(text.split()). -/
def pyWordCount (s : String) : Nat := wcAux s.data false

/-- One step of re.sub applied to whitespace runs: every maximal run of
whitespace becomes a single space. -/
def collapseWS : List Char → List Char
  | [] => []
  | [c] => [if pyIsSpace c then ' ' else c]
  | c :: d :: rest =>
    if pyIsSpace c && pyIsSpace d then collapseWS (d :: rest)
    else (if pyIsSpace c then ' ' else c) :: collapseWS (d :: rest)

/-- Whether pat is an initial segment of s. -/
def startsWithChars : List Char → List Char → Bool
  | [], _ => true
  | _ :: _, [] => false
  | p :: ps, c :: cs => p = c && startsWithChars ps cs

/-- Python `pat in s` substring containment. -/
def containsChars (pat : List Char) : List Char → Bool
  | [] => pat.isEmpty
  | c :: cs => startsWithChars pat (c :: cs) || containsChars pat cs

/-- Python text.isupper() (ASCII fragment): at least one cased character and
no lowercase character. -/
def pyStrIsUpper (s : List Char) : Bool :=
  s.any (fun c => c.isAlpha) && s.all (fun c => !c.isLower)

/-- Count of uppercase characters, sum(1 for c in text if c.isupper()). -/
def countUpper (s : List Char) : Nat := (s.filter Char.isUpper).length

/-- Python text.strip().endswith(":"). -/
def endsColon (text : String) : Bool :=
  match (pyStripChars text.data).getLast? with
  | some c => c = ':'
  | none => false

/-- Python int(b). -/
def boolQ (b : Bool) : ℚ := if b then 1 else 0

/-- normalize_text of both source files: re.sub(whitespace-run, one space,
text.strip().lower()). -/
def normalize_text (text : String) : String :=
  String.mk (collapseWS ((pyStripChars text.data).map Char.toLower))

/-- Whether the list starts with a whitespace character: the final regex
atom of every alternative of the numbered patterns. -/
def headIsSpace : List Char → Bool
  | c :: _ => pyIsSpace c
  | [] => false

/-- Character class of the roman-numeral alternative. -/
def romanChar (c : Char) : Bool :=
  c = 'I' || c = 'V' || c = 'X' || c = 'L' || c = 'C' || c = 'D' || c = 'M'

/-- Rest of the digit alternative after its first digit: more digits, then
one of period or closing parenthesis, then whitespace.  Digits are neither
period nor parenthesis, so the greedy run equals the backtracking search. -/
def digitsThenMark : List Char → Bool
  | c :: rest =>
    if c.isDigit then digitsThenMark rest
    else if c = '.' || c = ')' then headIsSpace rest
    else false
  | [] => false

/-- Rest of the roman alternative after its first letter: more roman
letters, an optional period, then whitespace.  A roman letter is neither a
period nor whitespace, so the greedy run equals the backtracking search. -/
def romanThenDot : List Char → Bool
  | c :: rest =>
    if romanChar c then romanThenDot rest
    else if c = '.' then headIsSpace rest
    else pyIsSpace c
  | [] => false

/-- The third alternative of the extractor regex as written in the source
file: the bytes of the bullet glyph mis-decoded as the three characters
U+00E2, U+20AC, U+00A2, then whitespace. -/
def mojibakeBullet : List Char → Bool
  | 'â' :: '€' :: '¢' :: rest => headIsSpace rest
  | _ => false

/-- extractor.py numbered pattern on an already stripped character list. -/
def numberedMatch : List Char → Bool
  | [] => false
  | c :: rest =>
    (c.isDigit && digitsThenMark rest) ||
    (romanChar c && romanThenDot rest) ||
    mojibakeBullet (c :: rest) ||
    (c = '-' && headIsSpace rest)

/-- utils.py numbered pattern on an already stripped character list: digit
marker, true bullet glyph, or hyphen, each followed by whitespace; no roman
alternative. -/
def numberedMatchU : List Char → Bool
  | [] => false
  | c :: rest =>
    (c.isDigit && digitsThenMark rest) ||
    (c = '•' && headIsSpace rest) ||
    (c = '-' && headIsSpace rest)

/-- A 4-float bounding box [x0, y0, x1, y1], y growing downward. -/
structure BBox where
  x0 : ℚ
  y0 : ℚ
  x1 : ℚ
  y1 : ℚ
  deriving DecidableEq

/-- The span record built by PDFOutlineExtractor.extract_spans. -/
structure Span where
  text : String
  font : String
  size : ℚ
  bbox : BBox
  page : Nat
  page_width : ℚ
  page_height : ℚ
  deriving DecidableEq

namespace App

/-- PDFOutlineExtractor.FEATURE_ORDER. -/
def FEATURE_ORDER : List String :=
  ["font_size", "is_bold", "x0", "word_count", "capital_ratio",
   "ends_colon", "numbered", "y_distance", "is_centered",
   "starts_capital", "all_caps", "line_length", "page_position",
   "prev_font_size", "prev_is_bold"]

/-- extract_features of extractor.py: the feature dict, as an association
list in the insertion order of the source's dict literal. -/
def extract_features (span : Span) (prev_span : Option Span) : List (String × ℚ) :=
  let text := span.text
  let bbox := span.bbox
  let y_distance : ℚ :=
    match prev_span with
    | none => 0
    | some prev =>
      if |bbox.y0 - prev.bbox.y0| < 5 then 0 else |bbox.y0 - prev.bbox.y1|
  let span_center := (bbox.x0 + bbox.x1) / 2
  let page_center := span.page_width / 2
  let is_centered : ℚ :=
    if |span_center - page_center| < (15 / 100) * span.page_width then 1 else 0
  let numbered := boolQ (numberedMatch (pyStripChars text.data))
  [("font_size", span.size),
   ("is_bold", boolQ (containsChars "bold".data span.font.data)),
   ("x0", bbox.x0),
   ("word_count", (pyWordCount text : ℚ)),
   ("capital_ratio", (countUpper text.data : ℚ) / ((max text.data.length 1 : ℕ) : ℚ)),
   ("ends_colon", boolQ (endsColon text)),
   ("numbered", numbered),
   ("y_distance", y_distance),
   ("is_centered", is_centered),
   ("starts_capital", match text.data with | c :: _ => boolQ c.isUpper | [] => 0),
   ("all_caps", boolQ (pyStrIsUpper text.data)),
   ("line_length", bbox.x1 - bbox.x0),
   ("page_position", bbox.y0 / span.page_height),
   ("prev_font_size", match prev_span with | some p => p.size | none => 0),
   ("prev_is_bold",
     match prev_span with
     | some p => boolQ (containsChars "bold".data p.font.data)
     | none => 0)]

end App

namespace Utils

/-- extract_features of utils.py: the training-time feature dict, as an
association list in the insertion order of its dict literal.  It hardcodes
US-Letter geometry (page center 306, page height 792), uses an absolute
20-point centering window, and its numbered pattern has no roman-numeral
alternative and uses the true bullet glyph. -/
def extract_features (span : Span) (prev_span : Option Span) : List (String × ℚ) :=
  let text := span.text
  let bbox := span.bbox
  let y_distance : ℚ :=
    match prev_span with
    | none => 0
    | some prev =>
      if |bbox.y0 - prev.bbox.y0| < 5 then 0 else |bbox.y0 - prev.bbox.y1|
  let page_center : ℚ := 612 / 2
  let span_center := (bbox.x0 + bbox.x1) / 2
  let is_centered : ℚ := if |span_center - page_center| < 20 then 1 else 0
  [("font_size", span.size),
   ("is_bold", boolQ (containsChars "bold".data span.font.data)),
   ("word_count", (pyWordCount text : ℚ)),
   ("capital_ratio", (countUpper text.data : ℚ) / ((max text.data.length 1 : ℕ) : ℚ)),
   ("ends_colon", boolQ (endsColon text)),
   ("numbered", boolQ (numberedMatchU (pyStripChars text.data))),
   ("starts_capital", match text.data with | c :: _ => boolQ c.isUpper | [] => 0),
   ("all_caps", boolQ (pyStrIsUpper text.data)),
   ("x0", bbox.x0),
   ("y_distance", y_distance),
   ("is_centered", is_centered),
   ("line_length", bbox.x1 - bbox.x0),
   ("page_position", bbox.y0 / 792),
   ("prev_font_size", match prev_span with | some p => p.size | none => 0),
   ("prev_is_bold",
     match prev_span with
     | some p => boolQ (containsChars "bold".data p.font.data)
     | none => 0)]

end Utils

/-- A heading of the assembled outline.  The source stores the level as the
string "H" followed by the digit; the numeric depth is kept here. -/
structure Heading where
  level : Nat
  text : String
  page : Nat
  bbox : BBox
  deriving DecidableEq

/-- The record extract_outline returns. -/
structure OutlineResult where
  title : String
  outline : List Heading
  source : String
  error : Option String
  deriving DecidableEq

/-- A raw geometry span as the page dictionary yields it; every field may be
absent.  Indexing an absent field raises a KeyError in the source. -/
structure RawSpan where
  text : Option String
  font : Option String
  size : Option ℚ
  bbox : Option BBox
  deriving DecidableEq

/-- A raw geometry line: line.get("lines"/"spans", []) never raises. -/
structure RawLine where
  spans : List RawSpan
  deriving DecidableEq

/-- A raw geometry block. -/
structure RawBlock where
  lines : List RawLine
  deriving DecidableEq

/-- A raw geometry page; width and height may be absent and default to the
US-Letter dimensions 612 by 792. -/
structure RawPage where
  width : Option ℚ
  height : Option ℚ
  blocks : List RawBlock
  deriving DecidableEq

/-- Python dict indexing, d[k]: the value, or a KeyError for an absent key. -/
def keyOr {α : Type} (o : Option α) (k : String) : Except String α :=
  match o with
  | some v => Except.ok v
  | none => Except.error ("KeyError: " ++ k)

/-- Round half to even, the tie rule of Python round(). -/
def roundHalfEven (q : ℚ) : ℤ :=
  if q - ⌊q⌋ < 1 / 2 then ⌊q⌋
  else if (1 : ℚ) / 2 < q - ⌊q⌋ then ⌊q⌋ + 1
  else if ⌊q⌋ % 2 = 0 then ⌊q⌋ else ⌊q⌋ + 1

/-- Python round(x, 2) on the exact rational model. -/
def pyRound2 (q : ℚ) : ℚ := (roundHalfEven (q * 100) : ℚ) / 100

namespace App

/-- The body of the span loop of extract_spans for one raw span: spans with
empty stripped text are dropped (ok none); a nonempty span indexes its size
and bbox, so an absent one raises.  Like the source, font and text default
when absent, size and bbox do not. -/
def spanFromRaw (page_num : Nat) (page_width page_height : ℚ) (rs : RawSpan) :
    Except String (Option Span) :=
  let text := pyStrip (rs.text.getD "")
  if text = "" then Except.ok none
  else
    match rs.size with
    | none => Except.error "KeyError: size"
    | some size =>
      match rs.bbox with
      | none => Except.error "KeyError: bbox"
      | some bb =>
        Except.ok (some
          { text := text,
            font := pyLower (rs.font.getD ""),
            size := pyRound2 size,
            bbox := { x0 := pyRound2 bb.x0, y0 := pyRound2 bb.y0,
                      x1 := pyRound2 bb.x1, y1 := pyRound2 bb.y1 },
            page := page_num,
            page_width := page_width,
            page_height := page_height })

/-- The span loop of extract_spans over one line. -/
def spansFromSpans (pn : Nat) (w h : ℚ) : List RawSpan → Except String (List Span)
  | [] => Except.ok []
  | rs :: rest => do
    let s? ← spanFromRaw pn w h rs
    let tail ← spansFromSpans pn w h rest
    match s? with
    | some s => Except.ok (s :: tail)
    | none => Except.ok tail

/-- The line loop of extract_spans over one block. -/
def spansFromLines (pn : Nat) (w h : ℚ) : List RawLine → Except String (List Span)
  | [] => Except.ok []
  | l :: ls => do
    let a ← spansFromSpans pn w h l.spans
    let b ← spansFromLines pn w h ls
    Except.ok (a ++ b)

/-- The block loop of extract_spans over one page. -/
def spansFromBlocks (pn : Nat) (w h : ℚ) : List RawBlock → Except String (List Span)
  | [] => Except.ok []
  | b :: bs => do
    let a ← spansFromLines pn w h b.lines
    let c ← spansFromBlocks pn w h bs
    Except.ok (a ++ c)

/-- The page loop of extract_spans, pages numbered from 1. -/
def extract_spansAux : Nat → List RawPage → Except String (List Span)
  | _, [] => Except.ok []
  | pn, p :: ps => do
    let a ← spansFromBlocks pn (p.width.getD 612) (p.height.getD 792) p.blocks
    let b ← extract_spansAux (pn + 1) ps
    Except.ok (a ++ b)

/-- PDFOutlineExtractor.extract_spans: flatten the geometry tree into spans
in reading order; a raised KeyError propagates to the caller. -/
def extract_spans (pages : List RawPage) : Except String (List Span) :=
  extract_spansAux 1 pages

/-- max(s.size for s in l) over a nonempty first-page list, first element
given separately. -/
def maxSizeFrom (first : ℚ) (rest : List Span) : ℚ :=
  rest.foldl (fun a s => max a s.size) first

/-- Stable insertion of a span into a list sorted by bbox top: the new span
goes before the first strictly lower span, as Python's stable sort keeps
equal keys in encounter order. -/
def insertByY (s : Span) : List Span → List Span
  | [] => [s]
  | t :: ts => if t.bbox.y0 < s.bbox.y0 then t :: insertByY s ts else s :: t :: ts

/-- Stable sort by bbox top ascending, candidates.sort(key=bbox[1]). -/
def sortByY (xs : List Span) : List Span := xs.foldr insertByY []

/-- PDFOutlineExtractor.detect_title. -/
def detect_title (spans : List Span) : String :=
  if spans.isEmpty then ""
  else
    let first_page := spans.filter (fun s => s.page = 1)
    let strat1 :=
      match first_page with
      | [] => ""
      | f :: fs =>
        let max_size := maxSizeFrom f.size fs
        let candidates := first_page.filter (fun s =>
          decide ((9 / 10 : ℚ) * max_size ≤ s.size) && decide (2 ≤ pyWordCount s.text))
        pyStrip (String.intercalate " " (((sortByY candidates).take 3).map (fun s => pyStrip s.text)))
    if strat1 ≠ "" then strat1
    else
      match spans.find? (fun s => decide (2 ≤ pyWordCount s.text)) with
      | some s => pyStrip s.text
      | none => ""

/-- detect_title as claim C4 words it: the trimmed texts of the first 3
(sorted by bbox top ascending) page-1 spans clearing the 0.9-of-max size
threshold with at least two words, joined with single spaces, when that join
is non-empty; otherwise the trimmed text of the first span anywhere with at
least two words; otherwise the empty string. -/
def detect_title_spec (spans : List Span) : String :=
  let firstPage := spans.filter (fun s => s.page = 1)
  let joined :=
    match firstPage with
    | [] => ""
    | f :: fs =>
      let candidates := firstPage.filter (fun s =>
        decide ((9 / 10 : ℚ) * maxSizeFrom f.size fs ≤ s.size) && decide (2 ≤ pyWordCount s.text))
      pyStrip (String.intercalate " " (((sortByY candidates).take 3).map (fun s => pyStrip s.text)))
  if joined ≠ "" then joined
  else
    match spans.find? (fun s => decide (2 ≤ pyWordCount s.text)) with
    | some s => pyStrip s.text
    | none => ""

/-- "H1".."H4" to numeric depth; anything else is not a heading label. -/
def headingLevel? (label : String) : Option Nat :=
  if label = "H1" then some 1
  else if label = "H2" then some 2
  else if label = "H3" then some 3
  else if label = "H4" then some 4
  else none

/-- The classifier row [feats[k] for k in FEATURE_ORDER]. -/
def featureRow (s : Span) (p : Option Span) : List ℚ :=
  FEATURE_ORDER.filterMap (fun k => (extract_features s p).lookup k)

/-- The span loop of extract_outline.  prevSpan is spans[i-1], the raw
predecessor regardless of skipping; prevLevel is the level of the most
recently emitted heading (the hierarchy cursor).  classify is the opaque
le.inverse_transform(model.predict(x))[0], None standing for the prediction
failure the bare except absorbs. -/
def outlineLoop (classify : List ℚ → Option String) (title : String) :
    Option Span → Option Nat → List Span → List Heading
  | _, _, [] => []
  | prevSpan, prevLevel, span :: rest =>
    let span_text := pyStrip span.text
    if normalize_text span_text = normalize_text title ∨ pyWordCount span_text < 2 then
      outlineLoop classify title (some span) prevLevel rest
    else
      match classify (featureRow span prevSpan) with
      | none => outlineLoop classify title (some span) prevLevel rest
      | some label =>
        match headingLevel? label with
        | none => outlineLoop classify title (some span) prevLevel rest
        | some n =>
          let lvl := match prevLevel with
            | some pl => min n (pl + 1)
            | none => n
          { level := lvl, text := span_text, page := span.page, bbox := span.bbox } ::
            outlineLoop classify title (some span) (some lvl) rest

/-- os.path.basename for a POSIX path. -/
def basename (p : String) : String :=
  String.mk ((p.data.reverse.takeWhile (fun c => c ≠ '/')).reverse)

/-- PDFOutlineExtractor.extract_outline.  The document argument is the
outcome of fitz.open: an error there, or a KeyError while extracting spans,
reaches the except clause, which returns the failed record with empty title
and outline and the message in the error field. -/
def extract_outline (classify : List ℚ → Option String) (pdf_path : String)
    (doc : Except String (List RawPage)) : OutlineResult :=
  match doc with
  | Except.error e =>
    { title := "", outline := [], source := basename pdf_path, error := some e }
  | Except.ok pages =>
    match extract_spans pages with
    | Except.error e =>
      { title := "", outline := [], source := basename pdf_path, error := some e }
    | Except.ok spans =>
      let title := detect_title spans
      { title := title,
        outline := outlineLoop classify title none none spans,
        source := basename pdf_path,
        error := none }

end App

/-- The raw span dictionary extract_features of extractor.py indexes: the
span fields plus the page geometry fields it reads with .get defaults. -/
structure RawFeatSpan where
  text : Option String
  font : Option String
  size : Option ℚ
  bbox : Option BBox
  page_width : Option ℚ
  page_height : Option ℚ
  deriving DecidableEq

namespace App

/-- extract_features of extractor.py at the dictionary level, with the
source's evaluation order of the raising accesses: span["text"],
span["bbox"], prev_span["bbox"], span["size"], prev_span["size"]; font and
the page dimensions are read with .get and default instead of raising. -/
def extract_features_raw (span : RawFeatSpan) (prev_span : Option RawFeatSpan) :
    Except String (List (String × ℚ)) := do
  let text ← keyOr span.text "text"
  let bbox ← keyOr span.bbox "bbox"
  let page_height := span.page_height.getD 792
  let page_width := span.page_width.getD 612
  let y_distance ← match prev_span with
    | none => Except.ok (0 : ℚ)
    | some prev => do
      let prev_bbox ← keyOr prev.bbox "bbox"
      Except.ok (if |bbox.y0 - prev_bbox.y0| < 5 then (0 : ℚ) else |bbox.y0 - prev_bbox.y1|)
  let span_center := (bbox.x0 + bbox.x1) / 2
  let page_center := page_width / 2
  let is_centered : ℚ :=
    if |span_center - page_center| < (15 / 100) * page_width then 1 else 0
  let numbered := boolQ (numberedMatch (pyStripChars text.data))
  let font_size ← keyOr span.size "size"
  let prev_font_size ← match prev_span with
    | none => Except.ok (0 : ℚ)
    | some prev => keyOr prev.size "size"
  let prev_is_bold : ℚ := match prev_span with
    | none => 0
    | some prev => boolQ (containsChars "bold".data (prev.font.getD "").data)
  Except.ok
    [("font_size", font_size),
     ("is_bold", boolQ (containsChars "bold".data (span.font.getD "").data)),
     ("x0", bbox.x0),
     ("word_count", (pyWordCount text : ℚ)),
     ("capital_ratio", (countUpper text.data : ℚ) / ((max text.data.length 1 : ℕ) : ℚ)),
     ("ends_colon", boolQ (endsColon text)),
     ("numbered", numbered),
     ("y_distance", y_distance),
     ("is_centered", is_centered),
     ("starts_capital", match text.data with | c :: _ => boolQ c.isUpper | [] => 0),
     ("all_caps", boolQ (pyStrIsUpper text.data)),
     ("line_length", bbox.x1 - bbox.x0),
     ("page_position", bbox.y0 / page_height),
     ("prev_font_size", prev_font_size),
     ("prev_is_bold", prev_is_bold)]

end App

/-- Hierarchy-consistency of an outline relative to the cursor: each heading
is at most one level deeper than the cursor, which then moves to it. -/
def hchain : Option Nat → List Heading → Prop
  | _, [] => True
  | none, h :: rest => hchain (some h.level) rest
  | some pl, h :: rest => h.level ≤ pl + 1 ∧ hchain (some h.level) rest

/-- Scenario span of claim C1, classified H1 through its size. -/
def demoSpan1 : Span :=
  { text := "Alpha beta", font := "", size := 10,
    bbox := { x0 := 72, y0 := 100, x1 := 300, y1 := 120 },
    page := 1, page_width := 612, page_height := 792 }

/-- Scenario span of claim C1, classified H3 through its size. -/
def demoSpan2 : Span :=
  { text := "Gamma delta", font := "", size := 11,
    bbox := { x0 := 72, y0 := 200, x1 := 300, y1 := 220 },
    page := 1, page_width := 612, page_height := 792 }

/-- Scenario span of claim C1, classified H2 through its size. -/
def demoSpan3 : Span :=
  { text := "Epsilon zeta", font := "", size := 12,
    bbox := { x0 := 72, y0 := 300, x1 := 300, y1 := 320 },
    page := 1, page_width := 612, page_height := 792 }

/-- The three scenario spans of claim C1 in order. -/
def demoSpans : List Span := [demoSpan1, demoSpan2, demoSpan3]

/-- A concrete classifier for the C1 scenario: it reads the font_size head
of the feature row and labels the three scenario spans H1, H3, H2. -/
def demoClassify : List ℚ → Option String
  | sz :: _ =>
    if sz = 10 then some "H1"
    else if sz = 11 then some "H3"
    else if sz = 12 then some "H2"
    else none
  | [] => none

/-- A concrete raw document for exercising the full pipeline: a title span
in large type and two body spans. -/
def demoPages : List RawPage :=
  [{ width := some 612, height := some 792,
     blocks :=
      [{ lines :=
          [{ spans :=
              [{ text := some "Introduction Chapter", font := some "times-bold",
                 size := some 20, bbox := some { x0 := 72, y0 := 50, x1 := 400, y1 := 80 } },
               { text := some "Background Story", font := some "times",
                 size := some 10, bbox := some { x0 := 72, y0 := 200, x1 := 300, y1 := 220 } },
               { text := some "Final Words", font := some "times",
                 size := some 8, bbox := some { x0 := 72, y0 := 300, x1 := 300, y1 := 320 } }] }] }] }]

/-- A concrete classifier for the demoPages document: size 10 is labelled
H1, size 8 is labelled H2, everything else fails to classify. -/
def demoClassify2 : List ℚ → Option String
  | sz :: _ =>
    if sz = 10 then some "H1"
    else if sz = 8 then some "H2"
    else none
  | [] => none

/-- The first heading the pipeline emits on demoPages under demoClassify2. -/
def demoHeading : Heading :=
  { level := 1, text := "Background Story", page := 1,
    bbox := { x0 := 72, y0 := 200, x1 := 300, y1 := 220 } }

/-- First scenario span of claim C4: the dominant page-1 text. -/
def c4Span1 : Span :=
  { text := "Annual Report 2024", font := "", size := 24,
    bbox := { x0 := 72, y0 := 50, x1 := 400, y1 := 80 },
    page := 1, page_width := 612, page_height := 792 }

/-- Second scenario span of claim C4: below the 0.9-of-max threshold. -/
def c4Span2 : Span :=
  { text := "Executive Summary", font := "", size := 12,
    bbox := { x0 := 72, y0 := 150, x1 := 300, y1 := 170 },
    page := 1, page_width := 612, page_height := 792 }

/-- A span whose bbox midpoint sits exactly 15 percent of the page width
from the page center: midpoint 397.8 on a 612-wide page. -/
def c5SpanAt : Span :=
  { text := "Centered heading here", font := "", size := 12,
    bbox := { x0 := 390, y0 := 100, x1 := 2028 / 5, y1 := 120 },
    page := 1, page_width := 612, page_height := 792 }

/-- A span whose bbox midpoint sits 14.9 percent of the page width from the
page center: midpoint 397.188 on a 612-wide page. -/
def c5SpanIn : Span :=
  { text := "Centered heading here", font := "", size := 12,
    bbox := { x0 := 390, y0 := 100, x1 := 50547 / 125, y1 := 120 },
    page := 1, page_width := 612, page_height := 792 }

/-- A span whose bbox midpoint sits 15.1 percent of the page width from the
page center: midpoint 398.412 on a 612-wide page. -/
def c5SpanOut : Span :=
  { text := "Centered heading here", font := "", size := 12,
    bbox := { x0 := 390, y0 := 100, x1 := 50853 / 125, y1 := 120 },
    page := 1, page_width := 612, page_height := 792 }

/-- A span whose trimmed text begins with the true bullet glyph and a
space. -/
def c6BulletSpan : Span :=
  { text := "• Item one", font := "", size := 12,
    bbox := { x0 := 72, y0 := 100, x1 := 300, y1 := 120 },
    page := 1, page_width := 612, page_height := 792 }

/-- A span whose trimmed text begins with the mis-decoded bullet bytes the
source regex literally contains. -/
def c6MojibakeSpan : Span :=
  { text := "â€¢ Item one", font := "", size := 12,
    bbox := { x0 := 72, y0 := 100, x1 := 300, y1 := 120 },
    page := 1, page_width := 612, page_height := 792 }

/-- A raw page holding one span with text but no size field. -/
def c9MissingSizePage : RawPage :=
  { width := some 612, height := some 792,
    blocks :=
      [{ lines :=
          [{ spans :=
              [{ text := some "Hello world", font := some "times-bold",
                 size := none,
                 bbox := some { x0 := 72, y0 := 50, x1 := 200, y1 := 70 } }] }] }] }

/-- A span on which the training-time and inference-time encoders disagree:
a roman-numeral marker and a midpoint 50 points off center. -/
def c10Span : Span :=
  { text := "IV. Overview team", font := "", size := 12,
    bbox := { x0 := 306, y0 := 100, x1 := 406, y1 := 120 },
    page := 1, page_width := 612, page_height := 792 }

/-- The span loop keeps the hierarchy invariant for every cursor value: each
emitted heading is at most one deeper than the cursor it was emitted
under. -/
theorem hchain_outlineLoop (classify : List ℚ → Option String) (title : String) :
    ∀ (spans : List Span) (prevSpan : Option Span) (pl : Option Nat),
      hchain pl (App.outlineLoop classify title prevSpan pl spans) := by
  intro spans
  induction spans with
  | nil =>
    intro prevSpan pl
    cases pl <;> simp [App.outlineLoop, hchain]
  | cons span rest ih =>
    intro prevSpan pl
    simp only [App.outlineLoop]
    split
    · exact ih _ _
    · split
      · exact ih _ _
      · split
        · exact ih _ _
        · rename_i n _
          cases pl with
          | none => simpa [hchain] using ih (some span) (some n)
          | some l =>
            simp only [hchain]
            exact ⟨Nat.min_le_right n (l + 1), ih (some span) (some (min n (l + 1)))⟩

/-- hchain gives the adjacent-pair property along the emitted list. -/
theorem hchain_chain' :
    ∀ (l : List Heading) (pl : Option Nat), hchain pl l →
      List.Chain' (fun a b => b.level ≤ a.level + 1) l := by
  intro l
  induction l with
  | nil => intro pl _; simp
  | cons h t ih =>
    intro pl hc
    have tail : hchain (some h.level) t := by
      cases pl with
      | none => simpa [hchain] using hc
      | some l0 =>
        have hc' : h.level ≤ l0 + 1 ∧ hchain (some h.level) t := by simpa [hchain] using hc
        exact hc'.2
    rw [List.chain'_cons']
    refine ⟨?_, ih _ tail⟩
    intro b hb
    cases t with
    | nil => simp at hb
    | cons b0 t0 =>
      simp at hb
      subst hb
      have tail' : b0.level ≤ h.level + 1 ∧ hchain (some b0.level) t0 := by
        simpa [hchain] using tail
      exact tail'.1

/-- C1: every assembled outline only deepens one level at a time between
adjacent emitted headings; with a previous heading in the cursor the emitted
level is min(parsed_level, previous_level + 1); and raw labels [H1, H3, H2]
with no prior heading assemble to levels [1, 2, 2]. -/
theorem C1_hierarchy_clamp :
    (∀ (classify : List ℚ → Option String) (title : String) (spans : List Span),
      List.Chain' (fun a b => b.level ≤ a.level + 1)
        (App.outlineLoop classify title none none spans)) ∧
    (∀ (classify : List ℚ → Option String) (title : String) (prevSpan : Option Span)
        (pl : Nat) (span : Span) (rest : List Span) (label : String) (n : Nat),
      ¬(normalize_text (pyStrip span.text) = normalize_text title ∨
          pyWordCount (pyStrip span.text) < 2) →
      classify (App.featureRow span prevSpan) = some label →
      App.headingLevel? label = some n →
      App.outlineLoop classify title prevSpan (some pl) (span :: rest) =
        { level := min n (pl + 1), text := pyStrip span.text,
          page := span.page, bbox := span.bbox } ::
          App.outlineLoop classify title (some span) (some (min n (pl + 1))) rest) ∧
    (App.outlineLoop demoClassify "" none none demoSpans).map Heading.level = [1, 2, 2] := by
  refine ⟨?_, ?_, ?_⟩
  · intro classify title spans
    exact hchain_chain' _ none (hchain_outlineLoop classify title spans none none)
  · intro classify title prevSpan pl span rest label n hskip hc hl
    simp only [App.outlineLoop]
    simp [hskip, hc, hl]
  · decide

/-- C2: the inference-time feature encoder always returns exactly the 15
declared fields in FEATURE_ORDER, for any span and any optional previous
span; an absent previous span is no error and defaults prev_font_size,
prev_is_bold and y_distance to 0. -/
theorem C2_feature_vector_shape (s : Span) (p : Option Span) :
    (App.extract_features s p).map Prod.fst = App.FEATURE_ORDER ∧
    (App.extract_features s none).lookup "prev_font_size" = some 0 ∧
    (App.extract_features s none).lookup "prev_is_bold" = some 0 ∧
    (App.extract_features s none).lookup "y_distance" = some 0 :=
  ⟨rfl, rfl, rfl, rfl⟩

/-- C7: a document whose geometry source fails to open yields the failed
record: empty title, empty outline, the document's base name, and the
failure message in the error field. -/
theorem C7_document_read_error (classify : List ℚ → Option String) (pdf_path msg : String) :
    App.extract_outline classify pdf_path (Except.error msg) =
      { title := "", outline := [], source := App.basename pdf_path, error := some msg } :=
  rfl

/-- Any heading the span loop emits comes from a span whose normalized text
differs from the normalized title, whatever the cursor and context. -/
theorem outlineLoop_title_ne (classify : List ℚ → Option String) (title : String) :
    ∀ (spans : List Span) (prevSpan : Option Span) (pl : Option Nat) (h : Heading),
      h ∈ App.outlineLoop classify title prevSpan pl spans →
      normalize_text h.text ≠ normalize_text title := by
  intro spans
  induction spans with
  | nil =>
    intro prevSpan pl h hm
    simp [App.outlineLoop] at hm
  | cons span rest ih =>
    intro prevSpan pl h hm
    simp only [App.outlineLoop] at hm
    split at hm
    · exact ih _ _ _ hm
    · rename_i hskip
      split at hm
      · exact ih _ _ _ hm
      · split at hm
        · exact ih _ _ _ hm
        · rcases List.mem_cons.mp hm with rfl | hm'
          · intro heq
            exact hskip (Or.inl heq)
          · exact ih _ _ _ hm'

/-- C3: no heading emitted by extract_outline has a normalized text equal to
the normalized detected title; every span matching the title is skipped. -/
theorem C3_title_exclusion (classify : List ℚ → Option String) (pdf_path : String)
    (doc : Except String (List RawPage)) (h : Heading)
    (hm : h ∈ (App.extract_outline classify pdf_path doc).outline) :
    normalize_text h.text ≠ normalize_text (App.extract_outline classify pdf_path doc).title := by
  cases doc with
  | error e => simp [App.extract_outline] at hm
  | ok pages =>
    cases hs : App.extract_spans pages with
    | error e =>
      simp only [App.extract_outline, hs] at hm
      simp at hm
    | ok spans =>
      simp only [App.extract_outline, hs] at hm ⊢
      exact outlineLoop_title_ne classify (App.detect_title spans) spans none none h hm

/-- Concrete instance of C3: the first heading of the demo document does not
carry the demo document's title. -/
theorem C3_title_exclusion_witness :
    normalize_text demoHeading.text ≠
      normalize_text (App.extract_outline demoClassify2 "docs/demo.pdf" (Except.ok demoPages)).title :=
  C3_title_exclusion demoClassify2 "docs/demo.pdf" (Except.ok demoPages) demoHeading
    (by with_unfolding_all decide)

/-- C4: detect_title behaves as the claim describes on every span sequence
(join of the up-to-three top-sorted threshold-clearing page-1 candidates,
else the first span anywhere with two or more words, else empty), and on the
section-8 scenario spans it returns "Annual Report 2024". -/
theorem C4_detect_title :
    (∀ spans : List Span, App.detect_title spans = App.detect_title_spec spans) ∧
    App.detect_title [c4Span1, c4Span2] = "Annual Report 2024" := by
  constructor
  · intro spans
    cases spans with
    | nil => rfl
    | cons s rest => rfl
  · with_unfolding_all decide

/-- Counterexample to C5 as stated: a span whose bbox midpoint sits exactly
15 percent of the page width from the page center gets is_centered = 0, not
1 — the source comparison is strict. -/
theorem C5_inclusive_boundary_counterexample :
    (App.extract_features c5SpanAt none).lookup "is_centered" = some 0 ∧
    ¬(App.extract_features c5SpanAt none).lookup "is_centered" = some 1 := by
  with_unfolding_all decide

/-- C5 amended: is_centered is 1 exactly when the bbox midpoint lies
strictly within 15 percent of the page width of the page center; at exactly
15 percent it is 0 (exclusive boundary), at 14.9 percent 1, at 15.1
percent 0, on a 612-wide page. -/
theorem C5_centering_strict (s : Span) (p : Option Span) :
    (App.extract_features s p).lookup "is_centered" =
      some (if |(s.bbox.x0 + s.bbox.x1) / 2 - s.page_width / 2| < (15 / 100) * s.page_width
            then 1 else 0) ∧
    (App.extract_features c5SpanIn none).lookup "is_centered" = some 1 ∧
    (App.extract_features c5SpanOut none).lookup "is_centered" = some 0 ∧
    (App.extract_features c5SpanAt none).lookup "is_centered" = some 0 :=
  ⟨rfl, by with_unfolding_all decide, by with_unfolding_all decide,
    by with_unfolding_all decide⟩

/-- C6: the claim is the intended behavior but the source regex is corrupt.
extractor.py's pattern contains the bullet glyph's UTF-8 bytes mis-decoded
as "â€¢", so a span whose trimmed text begins with the true bullet glyph
and a space gets numbered = 0, while the mis-decoded three-character
sequence gets 1; the sister encoder utils.py, with the intact bullet in the
same pattern, gives the bullet span 1. -/
theorem C6_mojibake_bullet :
    (App.extract_features c6BulletSpan none).lookup "numbered" = some 0 ∧
    (App.extract_features c6MojibakeSpan none).lookup "numbered" = some 1 ∧
    (Utils.extract_features c6BulletSpan none).lookup "numbered" = some 1 := by
  decide


/-- C8: a span whose classification fails, or whose decoded label is not
one of H1..H4, contributes nothing: no heading is emitted for it, the
hierarchy cursor is unchanged, and the loop proceeds to the next span with
this span as the raw predecessor, never aborting. -/
theorem C8_bad_prediction_skipped (classify : List ℚ → Option String) (title : String)
    (prevSpan : Option Span) (pl : Option Nat) (span : Span) (rest : List Span)
    (hbad : classify (App.featureRow span prevSpan) = none ∨
      ∀ label, classify (App.featureRow span prevSpan) = some label →
        App.headingLevel? label = none) :
    App.outlineLoop classify title prevSpan pl (span :: rest) =
      App.outlineLoop classify title (some span) pl rest := by
  simp only [App.outlineLoop]
  split
  · rfl
  · rcases hbad with hnone | hall
    · rw [hnone]
    · split
      · rfl
      · rename_i label hc
        rw [hall label hc]

/-- Concrete instance of C8: a classifier that always answers the label
"None" emits nothing for the demo span and leaves the loop state alone. -/
theorem C8_bad_prediction_witness :
    App.outlineLoop (fun _ => some "None") "" none none [demoSpan1] =
      App.outlineLoop (fun _ => some "None") "" (some demoSpan1) none [] :=
  C8_bad_prediction_skipped (fun _ => some "None") "" none none demoSpan1 []
    (Or.inr (fun label h => by cases h; rfl))

/-- Counterexample to C9 as stated: a document whose only span has text but
no size field makes span extraction raise a KeyError instead of applying a
default, so the omission is not tolerated. -/
theorem C9_missing_size_counterexample :
    App.extract_spans [c9MissingSizePage] = Except.error "KeyError: size" := rfl

/-- C9 amended: span extraction and feature encoding tolerate a missing
font (treated as non-bold empty string), missing page dimensions (defaulted
to 612 by 792), and a missing previous span (prev fields and y_distance 0),
but a nonempty-text span lacking its size raises a KeyError in both, and is
not defaulted. -/
theorem C9_missing_field_defaults :
    (∀ (pn : Nat) (w h : ℚ) (txt : String) (sz : ℚ) (bb : BBox),
      pyStrip txt ≠ "" →
      App.spanFromRaw pn w h { text := some txt, font := none, size := some sz, bbox := some bb } =
        Except.ok (some
          { text := pyStrip txt, font := "", size := pyRound2 sz,
            bbox := { x0 := pyRound2 bb.x0, y0 := pyRound2 bb.y0,
                      x1 := pyRound2 bb.x1, y1 := pyRound2 bb.y1 },
            page := pn, page_width := w, page_height := h })) ∧
    (∀ (bs : List RawBlock) (ps : List RawPage),
      App.extract_spansAux 1 ({ width := none, height := none, blocks := bs } :: ps) =
        do
          let a ← App.spansFromBlocks 1 612 792 bs
          let b ← App.extract_spansAux 2 ps
          Except.ok (a ++ b)) ∧
    (∀ (txt : String) (sz : ℚ) (bb : BBox),
      App.extract_features_raw
          { text := some txt, font := none, size := some sz, bbox := some bb,
            page_width := none, page_height := none } none =
        Except.ok (App.extract_features
          { text := txt, font := "", size := sz, bbox := bb,
            page := 1, page_width := 612, page_height := 792 } none)) ∧
    (∀ (pn : Nat) (w h : ℚ) (txt : String) (f : Option String) (bb : BBox),
      pyStrip txt ≠ "" →
      App.spanFromRaw pn w h { text := some txt, font := f, size := none, bbox := some bb } =
        Except.error "KeyError: size") ∧
    (∀ (txt : String) (f : Option String) (pw ph : Option ℚ) (bb : BBox),
      App.extract_features_raw
          { text := some txt, font := f, size := none, bbox := some bb,
            page_width := pw, page_height := ph } none =
        Except.error "KeyError: size") := by
  refine ⟨?_, ?_, ?_, ?_, ?_⟩
  · intro pn w h txt sz bb hne
    simp [App.spanFromRaw, hne]
    rfl
  · intro bs ps
    rfl
  · intro txt sz bb
    rfl
  · intro pn w h txt f bb hne
    simp [App.spanFromRaw, hne]
  · intro txt f pw ph bb
    rfl

/-- Counterexample to C10 as stated: on a concrete span the training-time
and inference-time encoders return different mappings — different key
orders, different is_centered, different numbered. -/
theorem C10_encoder_divergence :
    (App.extract_features c10Span none).map Prod.fst ≠
      (Utils.extract_features c10Span none).map Prod.fst ∧
    (Utils.extract_features c10Span none).lookup "is_centered" = some 0 ∧
    (App.extract_features c10Span none).lookup "is_centered" = some 1 ∧
    (Utils.extract_features c10Span none).lookup "numbered" = some 0 ∧
    (App.extract_features c10Span none).lookup "numbered" = some 1 := by
  with_unfolding_all decide

/-- C10 amended: the two encoders agree on the twelve fields font_size,
is_bold, x0, word_count, capital_ratio, ends_colon, y_distance,
starts_capital, all_caps, line_length, prev_font_size and prev_is_bold, and
on page_position whenever the page height is 792; their key sets coincide
only up to permutation (the declared orders differ), and is_centered and
numbered genuinely diverge (20-point window against 15 percent of page
width; no roman alternative and true bullet against roman alternative and
mis-decoded bullet). -/
theorem C10_encoder_partial_agreement (s : Span) (p : Option Span) :
    (∀ k ∈ (["font_size", "is_bold", "x0", "word_count", "capital_ratio", "ends_colon",
             "y_distance", "starts_capital", "all_caps", "line_length",
             "prev_font_size", "prev_is_bold"] : List String),
      (Utils.extract_features s p).lookup k = (App.extract_features s p).lookup k) ∧
    (s.page_height = 792 →
      (Utils.extract_features s p).lookup "page_position" =
        (App.extract_features s p).lookup "page_position") ∧
    ((Utils.extract_features s p).map Prod.fst).Perm
      ((App.extract_features s p).map Prod.fst) := by
  refine ⟨?_, ?_, ?_⟩
  · intro k hk
    fin_cases hk <;> rfl
  · intro h792
    have hu : (Utils.extract_features s p).lookup "page_position" =
        some (s.bbox.y0 / 792) := rfl
    have ha : (App.extract_features s p).lookup "page_position" =
        some (s.bbox.y0 / s.page_height) := rfl
    rw [hu, ha, h792]
  · have hu : (Utils.extract_features s p).map Prod.fst =
        ["font_size", "is_bold", "word_count", "capital_ratio", "ends_colon", "numbered",
         "starts_capital", "all_caps", "x0", "y_distance", "is_centered", "line_length",
         "page_position", "prev_font_size", "prev_is_bold"] := rfl
    have ha : (App.extract_features s p).map Prod.fst = App.FEATURE_ORDER := rfl
    rw [hu, ha]
    decide
